import Mathlib

/-!
Verification of the InvoiceAssistant core: a shallow embedding of the
deterministic validation engine (src/services/validationService.js), the
confidence-badge normalization (src/components/ConfidenceBadge.jsx), the
daily-cost admission control of the two Netlify function handlers
(netlify/functions/claude-score.js and claude-extract.js), and the
score alias mapping of src/services/claudeService.js.

Modelling conventions: JavaScript numbers are embedded as exact rationals
(ℚ); the concrete inputs proved about stay far from binary-rounding
boundaries.  Nullable / optional JS values are `Option`; the string fields
the validators receive are modelled as `Option String` (the JS code's
extra `typeof x === 'number' → toString` coercions are folded away, since
every claim quantifies over string inputs).  JS falsiness on such values
is `isTruthy`.  Warning messages that interpolate numbers are embedded as
an inductive carrying the interpolated values instead of a formatted
string; error messages are the literal strings of the source.
-/

namespace InvoiceAssistant

/-- JS truthiness of a nullable string: `undefined`/`null` and `""` are falsy. -/
def isTruthy : Option String → Bool
  | none => false
  | some s => !s.isEmpty

/-- JS `a || b` on nullable strings: `b` when `a` is falsy. -/
def jsOr (a b : Option String) : Option String :=
  if isTruthy a then a else b

/-- The characters JS `\s` matches within the ASCII range (the source only
ever strips whitespace out of amount strings, so the non-ASCII space
characters never change the result on the inputs considered). -/
def jsWhitespaceChar (c : Char) : Bool :=
  c == ' ' || c == '\t' || c == '\n' || c == '\x0d' || c == '\x0b' || c == '\x0c'

/-- JS `String.prototype.trim()`: strip whitespace from both ends (the
non-ASCII space characters JS also strips never occur in the inputs
considered). -/
def jsTrim (s : String) : String :=
  String.mk (((s.toList.dropWhile jsWhitespaceChar).reverse.dropWhile jsWhitespaceChar).reverse)

/-- JS `String.prototype.toUpperCase()` on the ASCII currency codes the
engine sees. -/
def jsToUpper (s : String) : String :=
  String.mk (s.toList.map Char.toUpper)

/-- `amountStr.replace(/[,$\s]/g, '')` from validateAmount
(src/services/validationService.js line 208). -/
def cleanAmount (s : String) : String :=
  String.mk (s.toList.filter (fun c => !(c == ',' || c == '$' || jsWhitespaceChar c)))

/-- Decimal digits read most-significant first. -/
def digitsToNat (ds : List Char) : ℕ :=
  ds.foldl (fun acc c => acc * 10 + (c.toNat - '0'.toNat)) 0

/-- Exponent part of a JS float literal: `e`/`E`, optional sign, digits.
When no digit follows, the longest valid literal prefix is just the
mantissa, so the mantissa is returned unchanged. -/
def applyExponent (mant : ℚ) (cs : List Char) : ℚ :=
  match cs with
  | 'e' :: r | 'E' :: r =>
    let (neg, r2) := match r with
      | '+' :: t => (false, t)
      | '-' :: t => (true, t)
      | t => (false, t)
    let ds := r2.takeWhile Char.isDigit
    if ds.isEmpty then mant
    else if neg then mant / (10 : ℚ) ^ digitsToNat ds
    else mant * (10 : ℚ) ^ digitsToNat ds
  | _ => mant

/-- Unsigned decimal literal: digits, optional `.` digits, optional exponent.
`none` when no digit occurs before the exponent (JS `NaN`). -/
def parseDec (cs : List Char) : Option ℚ :=
  let intDs := cs.takeWhile Char.isDigit
  let rest := cs.dropWhile Char.isDigit
  let (fracDs, rest2) := match rest with
    | '.' :: r => (r.takeWhile Char.isDigit, r.dropWhile Char.isDigit)
    | _ => ([], rest)
  if intDs.isEmpty && fracDs.isEmpty then none
  else
    let mant : ℚ := (digitsToNat intDs : ℚ) + (digitsToNat fracDs : ℚ) / (10 : ℚ) ^ fracDs.length
    some (applyExponent mant rest2)

/-- Model of JS `parseFloat` on decimal literals: skip leading whitespace,
optional sign, then the longest decimal-literal prefix; `none` models `NaN`.
(`Infinity` and non-decimal forms never arise from the cleaned inputs.) -/
def parseFloat (s : String) : Option ℚ :=
  match s.toList.dropWhile jsWhitespaceChar with
  | '+' :: rest => parseDec rest
  | '-' :: rest => (parseDec rest).map Neg.neg
  | cs => parseDec cs

/-- Warnings of the validation engine; messages that interpolate numbers
carry the interpolated values. -/
inductive VWarning where
  | outsideTypicalRange (fieldName : String)
  | cannotVerifyDueDate
  | lineItemMismatch (lineItemTotal numericAmount difference : ℚ)
  | currencyNotSpecified
  | unusualCurrency (code : String)
  | customerNameEmpty
deriving DecidableEq, Repr

/-- The `{value, valid, error?, warning?, numericValue?}` objects the
validators return. -/
structure ValidationResult where
  value : Option String
  valid : Bool
  error : Option String
  warning : Option VWarning
  numericValue : Option ℚ
deriving DecidableEq, Repr

/-- A line item; only `amount` is read by the validation engine. -/
structure LineItem where
  description : Option String := none
  quantity : Option ℚ := none
  unit_price : Option ℚ := none
  amount : Option String := none
deriving DecidableEq, Repr

/-- The raw field set the extraction stage produces, as read by
validateDocumentData (both canonical and legacy alias keys). -/
structure ExtractedData where
  vendor_name : Option String := none
  reference_number : Option String := none
  invoice_number : Option String := none
  transaction_date : Option String := none
  invoice_date : Option String := none
  payment_due_date : Option String := none
  due_date : Option String := none
  total_amount : Option String := none
  amount_due : Option String := none
  currency : Option String := none
  customer_name : Option String := none
  line_items : List LineItem := []
deriving DecidableEq, Repr

/-- validateVendorName (src/services/validationService.js lines 51-83).
Note the `< 2` length check runs on the untrimmed string. -/
def validateVendorName (vendorName : Option String) : ValidationResult :=
  if !(isTruthy vendorName) then
    ⟨vendorName, false, some "Vendor name is required", none, none⟩
  else
    let vendorStr := vendorName.getD ""
    if (jsTrim vendorStr).length = 0 then
      ⟨vendorName, false, some "Vendor name is required", none, none⟩
    else if vendorStr.length < 2 then
      ⟨vendorName, false, some "Vendor name too short", none, none⟩
    else
      ⟨some vendorStr, true, none, none, none⟩

/-- validateReferenceNumber (lines 88-104). -/
def validateReferenceNumber (referenceNumber : Option String) : ValidationResult :=
  if !(isTruthy referenceNumber) || (jsTrim (referenceNumber.getD "")).length = 0 then
    ⟨referenceNumber, false, some "Reference number is required", none, none⟩
  else
    ⟨referenceNumber, true, none, none, none⟩

/-- The regex `^\d{4}-\d{2}-\d{2}$` of validateDate (line 119). -/
def matchesDateRegex (s : String) : Bool :=
  match s.toList with
  | [y1, y2, y3, y4, '-', m1, m2, '-', d1, d2] =>
    y1.isDigit && y2.isDigit && y3.isDigit && y4.isDigit &&
    m1.isDigit && m2.isDigit && d1.isDigit && d2.isDigit
  | _ => false

def isLeapYear (y : ℕ) : Bool :=
  (y % 4 == 0 && y % 100 != 0) || y % 400 == 0

def daysInMonth (y m : ℕ) : ℕ :=
  if m = 2 then (if isLeapYear y then 29 else 28)
  else if m = 4 || m = 6 || m = 9 || m = 11 then 30
  else 31

/-- Model of `new Date(s).getTime()` at calendar-day granularity for the
strict `YYYY-MM-DD` strings the engine validates: `some` of a key ordered
like the timestamp (`y*10000 + m*100 + d`) for a real calendar date,
`none` for `NaN` (out-of-range month/day).  Strings outside the strict
format are mapped to `none`; the engine only ever compares dates after the
strict-format check, except for the already-validated invoice date fed to
validateDueDate, for which the theorems below assume the strict format. -/
def jsDate (s : String) : Option ℕ :=
  match s.toList with
  | [y1, y2, y3, y4, '-', m1, m2, '-', d1, d2] =>
    if y1.isDigit && y2.isDigit && y3.isDigit && y4.isDigit &&
       m1.isDigit && m2.isDigit && d1.isDigit && d2.isDigit then
      let y := digitsToNat [y1, y2, y3, y4]
      let m := digitsToNat [m1, m2]
      let d := digitsToNat [d1, d2]
      if 1 ≤ m && m ≤ 12 && 1 ≤ d && d ≤ daysInMonth y m then
        some (y * 10000 + m * 100 + d)
      else none
    else none
  | _ => none

/-- JS `new Date(a) < new Date(b)`: false whenever either side is `NaN`. -/
def jsDateLt (a b : String) : Bool :=
  match jsDate a, jsDate b with
  | some x, some y => decide (x < y)
  | _, _ => false

/-- The current date, at the calendar-day granularity the range check in
validateDate uses (`month` is 1-12; the code's 0-based `getMonth()` is
used consistently on both sides of each comparison, so the convention
cancels out). -/
structure SimpleDate where
  year : ℕ
  month : ℕ
  day : ℕ
deriving DecidableEq, Repr

/-- Key of `new Date(now.getFullYear() - 5, now.getMonth(), now.getDate())`. -/
def fiveYearsAgoKey (now : SimpleDate) : ℕ :=
  (now.year - 5) * 10000 + now.month * 100 + now.day

/-- Key of `new Date(now.getFullYear() + 2, now.getMonth(), now.getDate())`. -/
def twoYearsFromNowKey (now : SimpleDate) : ℕ :=
  (now.year + 2) * 10000 + now.month * 100 + now.day

/-- validateDate (lines 109-155): strict format, real calendar date, and a
valid-with-warning outcome outside [now − 5 years, now + 2 years]. -/
def validateDate (now : SimpleDate) (dateString : Option String) (fieldName : String) :
    ValidationResult :=
  if !(isTruthy dateString) then
    ⟨dateString, false, some (fieldName ++ " is required"), none, none⟩
  else
    let s := dateString.getD ""
    if !(matchesDateRegex s) then
      ⟨dateString, false, some (fieldName ++ " must be in YYYY-MM-DD format"), none, none⟩
    else
      match jsDate s with
      | none => ⟨dateString, false, some (fieldName ++ " is not a valid date"), none, none⟩
      | some key =>
        if key < fiveYearsAgoKey now || twoYearsFromNowKey now < key then
          ⟨dateString, true, none, some (VWarning.outsideTypicalRange fieldName), none⟩
        else
          ⟨dateString, true, none, none, none⟩

/-- validateDueDate (lines 160-190): validate the due date itself, warn when
there is no invoice date to compare against, error when strictly earlier
than the invoice date. -/
def validateDueDate (now : SimpleDate) (invoiceDate : Option String) (dueDate : String) :
    ValidationResult :=
  let dueDateValidation := validateDate now (some dueDate) "due_date"
  if !dueDateValidation.valid then dueDateValidation
  else if !(isTruthy invoiceDate) then
    ⟨some dueDate, true, none, some VWarning.cannotVerifyDueDate, none⟩
  else if jsDateLt dueDate (invoiceDate.getD "") then
    ⟨some dueDate, false, some "Due date must be on or after invoice date", none, none⟩
  else
    ⟨some dueDate, true, none, none, none⟩

/-- One line item's contribution to the reduce in validateAmount (lines
231-236): a falsy amount becomes `'0'`, the cleaned string is parsed with
`parseFloat(cleaned || 0)`; `none` models a `NaN` contribution. -/
def lineItemAmount (item : LineItem) : Option ℚ :=
  let itemAmountStr := match item.amount with
    | some s => if s.isEmpty then "0" else s
    | none => "0"
  let cleaned := cleanAmount itemAmountStr
  if cleaned.isEmpty then some 0 else parseFloat cleaned

/-- The reduce accumulating the line-item sum; a `NaN` contribution
poisons the whole sum, as in JS arithmetic. -/
def lineItemTotal (items : List LineItem) : Option ℚ :=
  items.foldl
    (fun acc item =>
      match acc, lineItemAmount item with
      | some s, some a => some (s + a)
      | _, _ => none)
    (some 0)

/-- validateAmount (lines 195-256).  A `NaN` line-item sum makes the
`difference > tolerance` comparison false, so the code falls through to
the plain valid result. -/
def validateAmount (amount : Option String) (lineItems : List LineItem) : ValidationResult :=
  if !(isTruthy amount) then
    ⟨amount, false, some "Amount is required", none, none⟩
  else
    let amountStr := amount.getD ""
    let cleanAmt := cleanAmount amountStr
    match parseFloat cleanAmt with
    | none => ⟨amount, false, some "Amount must be a valid number", none, none⟩
    | some numericAmount =>
      if numericAmount ≤ 0 then
        ⟨amount, false, some "Amount must be positive", none, none⟩
      else if lineItems.length > 0 then
        match lineItemTotal lineItems with
        | some lineItemTot =>
          let tolerance := max (0.01 : ℚ) (numericAmount * 0.01)
          let difference := |numericAmount - lineItemTot|
          if tolerance < difference then
            ⟨amount, true, none,
              some (VWarning.lineItemMismatch lineItemTot numericAmount difference), none⟩
          else
            ⟨amount, true, none, none, some numericAmount⟩
        | none => ⟨amount, true, none, none, some numericAmount⟩
      else
        ⟨amount, true, none, none, some numericAmount⟩

/-- The fixed allow-list of validateCurrency (line 273). -/
def validCurrencies : List String :=
  ["USD", "EUR", "GBP", "CAD", "AUD", "JPY", "CNY", "INR"]

/-- validateCurrency (lines 261-287).  When the uppercased code is outside
the allow-list the original (non-uppercased) string is kept as the value. -/
def validateCurrency (currency : Option String) : ValidationResult :=
  if !(isTruthy currency) then
    ⟨some "USD", true, none, some VWarning.currencyNotSpecified, none⟩
  else
    let currencyStr := currency.getD ""
    if !(validCurrencies.contains (jsToUpper currencyStr)) then
      ⟨some currencyStr, true, none, some (VWarning.unusualCurrency currencyStr), none⟩
    else
      ⟨some (jsToUpper currencyStr), true, none, none, none⟩

/-- validateCustomerName (lines 289-316; that region of the staged file is
partially garbled, and the definition follows the surviving fragments plus
the spec sentence "optional; blank/absent → warning only, never invalid"):
every branch is valid, blank or absent input carries a warning. -/
def validateCustomerName (customerName : Option String) : ValidationResult :=
  if !(isTruthy customerName) then
    ⟨customerName, true, none, some VWarning.customerNameEmpty, none⟩
  else
    let nameStr := customerName.getD ""
    if (jsTrim nameStr).length = 0 then
      ⟨customerName, true, none, some VWarning.customerNameEmpty, none⟩
    else
      ⟨some nameStr, true, none, none, none⟩

/-- validateDocumentData (lines 9-46): one ordered key → result map, the
alias keys (`invoice_number`, `invoice_date`, `due_date`, `amount_due`)
bound to the very result object of their canonical counterpart. -/
def validateDocumentData (now : SimpleDate) (extractedData : ExtractedData) :
    List (String × ValidationResult) :=
  let vendorR := validateVendorName extractedData.vendor_name
  let refNumber := jsOr extractedData.reference_number extractedData.invoice_number
  let refR := validateReferenceNumber refNumber
  let transDate := jsOr extractedData.transaction_date extractedData.invoice_date
  let transR := validateDate now transDate "transaction_date"
  let dueDate := jsOr extractedData.payment_due_date extractedData.due_date
  let dueEntries :=
    if isTruthy dueDate then
      let dueR := validateDueDate now transDate (dueDate.getD "")
      [("payment_due_date", dueR), ("due_date", dueR)]
    else []
  let amount := jsOr extractedData.total_amount extractedData.amount_due
  let amountR := validateAmount amount extractedData.line_items
  let currencyR := validateCurrency extractedData.currency
  let customerEntries :=
    if isTruthy extractedData.customer_name then
      [("customer_name", validateCustomerName extractedData.customer_name)]
    else []
  [("vendor_name", vendorR), ("reference_number", refR), ("invoice_number", refR),
   ("transaction_date", transR), ("invoice_date", transR)]
  ++ dueEntries
  ++ [("total_amount", amountR), ("amount_due", amountR), ("currency", currencyR)]
  ++ customerEntries

/-- The summary object getValidationSummary returns. -/
structure ValidationSummary where
  total : ℕ
  valid : ℕ
  warnings : ℕ
  errors : ℕ
  allValid : Bool
deriving DecidableEq, Repr

/-- getValidationSummary (lines 321-341): counts over `Object.entries`, so
every key — alias keys included — counts separately. -/
def getValidationSummary (validationResults : List (String × ValidationResult)) :
    ValidationSummary :=
  let totalFields := validationResults.length
  let validFields := validationResults.countP (fun fr => fr.2.valid)
  let fieldsWithWarnings := validationResults.countP (fun fr => fr.2.warning.isSome)
  let fieldsWithErrors := validationResults.countP (fun fr => fr.2.error.isSome)
  ⟨totalFields, validFields, fieldsWithWarnings, fieldsWithErrors, fieldsWithErrors == 0⟩

/-- The scale normalization of ConfidenceBadge
(src/components/ConfidenceBadge.jsx line 3). -/
def normalizeConfidence (confidence : ℚ) : ℚ :=
  if 1 < confidence then confidence / 100 else confidence

/-- getLabel (ConfidenceBadge.jsx lines 11-15); getColor buckets with the
same thresholds. -/
def getLabel (score : ℚ) : String :=
  if (0.8 : ℚ) ≤ score then "High"
  else if (0.6 : ℚ) ≤ score then "Medium"
  else "Low"

/-- The display tier the badge shows for an incoming confidence value. -/
def confidenceBadgeLabel (confidence : ℚ) : String :=
  getLabel (normalizeConfidence confidence)

/-- The in-memory `dailyCostTracker` of the two Netlify function handlers. -/
structure CostTracker where
  date : String
  totalCost : ℚ
deriving DecidableEq, Repr

/-- `DAILY_COST_LIMIT` (claude-score.js line 5, claude-extract.js line 5). -/
def DAILY_COST_LIMIT : ℚ := 1.0

/-- checkAndResetDailyLimit (claude-score.js lines 13-21, identical in
claude-extract.js): reset the ledger when the stored day is not `today`
(the current UTC calendar day rendered `toISOString().split('T')[0]`). -/
def checkAndResetDailyLimit (today : String) (tracker : CostTracker) : CostTracker :=
  if tracker.date ≠ today then ⟨today, 0⟩ else tracker

/-- Outcome of the admission-control prefix of a handler. -/
inductive AdmissionOutcome where
  | methodNotAllowed
  | denied (currentUsage dailyLimit : ℚ)
  | allowed
deriving DecidableEq, Repr

/-- The admission-control prefix shared by the claude-score.js handler
(lines 36-56) and the claude-extract.js handler: reject non-POST, reset the
tracker for a new day, then 429 with `currentUsage`/`dailyLimit` exactly
when `totalCost >= DAILY_COST_LIMIT`.  The updated tracker is returned with
the outcome. -/
def handlerAdmission (httpMethod today : String) (tracker : CostTracker) :
    AdmissionOutcome × CostTracker :=
  if httpMethod ≠ "POST" then (.methodNotAllowed, tracker)
  else
    let t := checkAndResetDailyLimit today tracker
    if DAILY_COST_LIMIT ≤ t.totalCost then (.denied t.totalCost DAILY_COST_LIMIT, t)
    else (.allowed, t)

/-- calculateCost of claude-score.js (lines 23-34): claude-haiku-3.5
pricing, $0.80 per million input tokens and $4.00 per million output
tokens. -/
def calculateCost (inputTokens outputTokens : ℕ) : ℚ :=
  let inputCostPer1M : ℚ := 0.80
  let outputCostPer1M : ℚ := 4.00
  let inputCost := ((inputTokens : ℚ) / 1000000) * inputCostPer1M
  let outputCost := ((outputTokens : ℚ) / 1000000) * outputCostPer1M
  inputCost + outputCost

/-- The `usage` object of the 200 response (claude-score.js lines 123-130). -/
structure UsageRecord where
  inputTokens : ℕ
  outputTokens : ℕ
  cost : ℚ
  dailyTotal : ℚ
  dailyLimit : ℚ
  remainingBudget : ℚ
deriving DecidableEq, Repr

/-- The post-call accounting of the claude-score.js handler (lines
109-131): add the call's cost to the tracker and build the usage record
from the updated tracker. -/
def recordScoringUsage (tracker : CostTracker) (inputTokens outputTokens : ℕ) :
    CostTracker × UsageRecord :=
  let cost := calculateCost inputTokens outputTokens
  let tracker2 : CostTracker := ⟨tracker.date, tracker.totalCost + cost⟩
  (tracker2,
    { inputTokens := inputTokens
      outputTokens := outputTokens
      cost := cost
      dailyTotal := tracker2.totalCost
      dailyLimit := DAILY_COST_LIMIT
      remainingBudget := max 0 (DAILY_COST_LIMIT - tracker2.totalCost) })

/-- A per-field confidence score returned by the scoring stage. -/
structure ConfidenceScore where
  confidence : ℚ
  reasoning : String
deriving DecidableEq, Repr

/-- The `mappedScores` object of scoreExtractedData
(src/services/claudeService.js lines 254-260), as the map reads observe it:
`{...scores, invoice_number: scores.reference_number || scores.invoice_number, ...}`.
The score objects are always truthy, so `||` is `Option.orElse` here. -/
def mappedScores (scores : List (String × ConfidenceScore)) (name : String) :
    Option ConfidenceScore :=
  if name = "invoice_number" then
    (List.lookup "reference_number" scores).orElse (fun _ => List.lookup "invoice_number" scores)
  else if name = "invoice_date" then
    (List.lookup "transaction_date" scores).orElse (fun _ => List.lookup "invoice_date" scores)
  else if name = "amount_due" then
    (List.lookup "total_amount" scores).orElse (fun _ => List.lookup "amount_due" scores)
  else if name = "due_date" then
    (List.lookup "payment_due_date" scores).orElse (fun _ => List.lookup "due_date" scores)
  else List.lookup name scores

/-- The symbol-free form named by the spec sentence "for all total_amount
strings containing currency symbols/commas/whitespace": the same string
with currency symbols, thousands-separator commas and whitespace removed.
Stated from the spec's words (the code's own cleaning only strips `$`), to
compare the claimed equivalence against the code. -/
def specCurrencySymbols : List Char := ['$', '€', '£', '¥']

/-- The spec-side cleaning: remove currency symbols, commas and whitespace. -/
def specSymbolFreeForm (s : String) : String :=
  String.mk (s.toList.filter
    (fun c => !(specCurrencySymbols.contains c || c == ',' || jsWhitespaceChar c)))

/-- 1 when the result carries an error, else 0 (counting helper). -/
def errFlag (r : ValidationResult) : ℕ := if r.error.isSome then 1 else 0

/-- 1 when the result carries a warning, else 0. -/
def warnFlag (r : ValidationResult) : ℕ := if r.warning.isSome then 1 else 0

/-- 1 when the result is valid, else 0. -/
def validFlag (r : ValidationResult) : ℕ := if r.valid then 1 else 0

/-- C1: in the admission check of both handlers, a stored ledger date
different from the current UTC day first resets the ledger to
`{date: today, totalCost: 0}`; the request is then denied with a 429
carrying `currentUsage` and `dailyLimit` iff the post-reset total is at or
above the daily limit (equality included), and admitted iff it is strictly
below. -/
theorem admission_resets_then_denies_iff_at_limit (today : String) (tracker : CostTracker) :
    (tracker.date ≠ today → checkAndResetDailyLimit today tracker = ⟨today, 0⟩) ∧
    ((handlerAdmission "POST" today tracker).1 =
        AdmissionOutcome.denied (checkAndResetDailyLimit today tracker).totalCost DAILY_COST_LIMIT
      ↔ DAILY_COST_LIMIT ≤ (checkAndResetDailyLimit today tracker).totalCost) ∧
    ((handlerAdmission "POST" today tracker).1 = AdmissionOutcome.allowed
      ↔ (checkAndResetDailyLimit today tracker).totalCost < DAILY_COST_LIMIT) ∧
    ((checkAndResetDailyLimit today tracker).totalCost = DAILY_COST_LIMIT →
      (handlerAdmission "POST" today tracker).1 =
        AdmissionOutcome.denied DAILY_COST_LIMIT DAILY_COST_LIMIT) := by
  refine ⟨fun h => by simp [checkAndResetDailyLimit, h], ?_, ?_, ?_⟩ <;>
      by_cases hle : DAILY_COST_LIMIT ≤ (checkAndResetDailyLimit today tracker).totalCost
  · simp [handlerAdmission, hle]
  · simp [handlerAdmission, hle]
  · simp [handlerAdmission, hle, not_lt.mpr hle]
  · simp [handlerAdmission, hle, not_le.mp hle]
  · intro h
    simp [handlerAdmission, hle, h]
  · intro h
    rw [h] at hle
    exact absurd le_rfl hle

/-- C4: the badge divides an incoming confidence by 100 exactly when it
exceeds 1, and buckets the normalized value with inclusive lower bounds
0.8 (High) and 0.6 (Medium), Low otherwise; 85 and 0.85 get the same
tier "High". -/
theorem confidenceBadge_normalization_and_tiers (c : ℚ) :
    normalizeConfidence c = (if 1 < c then c / 100 else c) ∧
    (confidenceBadgeLabel c = "High" ↔ (0.8 : ℚ) ≤ normalizeConfidence c) ∧
    (confidenceBadgeLabel c = "Medium" ↔
      ((0.6 : ℚ) ≤ normalizeConfidence c ∧ normalizeConfidence c < 0.8)) ∧
    (confidenceBadgeLabel c = "Low" ↔ normalizeConfidence c < 0.6) ∧
    confidenceBadgeLabel 85 = "High" ∧ confidenceBadgeLabel (0.85 : ℚ) = "High" := by
  have hlab : ∀ x : ℚ,
      getLabel x = if (0.8:ℚ) ≤ x then "High" else if (0.6:ℚ) ≤ x then "Medium" else "Low" :=
    fun x => rfl
  refine ⟨rfl, ?_, ?_, ?_, ?_, ?_⟩
  · by_cases h8 : (0.8:ℚ) ≤ normalizeConfidence c
    · simp [confidenceBadgeLabel, hlab, h8]
    · simp [confidenceBadgeLabel, hlab, h8]
      split_ifs <;> simp
  · by_cases h8 : (0.8:ℚ) ≤ normalizeConfidence c
    · simp [confidenceBadgeLabel, hlab, h8]
    · by_cases h6 : (0.6:ℚ) ≤ normalizeConfidence c
      · simp [confidenceBadgeLabel, hlab, h8, h6, not_le.mp h8]
      · simp [confidenceBadgeLabel, hlab, h8, h6]
  · by_cases h8 : (0.8:ℚ) ≤ normalizeConfidence c
    · simp [confidenceBadgeLabel, hlab, h8]
      linarith
    · by_cases h6 : (0.6:ℚ) ≤ normalizeConfidence c
      · simp [confidenceBadgeLabel, hlab, h8, h6]
      · simp [confidenceBadgeLabel, hlab, h8, h6, not_le.mp h6]
  · norm_num [confidenceBadgeLabel, normalizeConfidence, getLabel]
  · norm_num [confidenceBadgeLabel, normalizeConfidence, getLabel]

/-- C5: the scoring stage records cost
`inputTokens/1e6 * 0.80 + outputTokens/1e6 * 4.00`; it is added to the
ledger total, and the returned usage record carries that new total and
`remainingBudget = max 0 (dailyLimit - new total)`. -/
theorem recordScoringUsage_cost_and_budget (tracker : CostTracker) (i o : ℕ) :
    (recordScoringUsage tracker i o).2.cost =
        ((i : ℚ) / 1000000) * 0.80 + ((o : ℚ) / 1000000) * 4.00 ∧
    (recordScoringUsage tracker i o).1.totalCost =
        tracker.totalCost + (recordScoringUsage tracker i o).2.cost ∧
    (recordScoringUsage tracker i o).2.dailyTotal =
        (recordScoringUsage tracker i o).1.totalCost ∧
    (recordScoringUsage tracker i o).2.dailyLimit = DAILY_COST_LIMIT ∧
    (recordScoringUsage tracker i o).2.remainingBudget =
        max 0 (DAILY_COST_LIMIT - (recordScoringUsage tracker i o).1.totalCost) :=
  ⟨rfl, rfl, rfl, rfl, rfl⟩

/-- Evaluation lemma: `parseFloat(cleanAmount("15.00")) = 15`. -/
theorem parseFloat_1500 : parseFloat (cleanAmount "15.00") = some 15 := by
  have h : parseFloat (cleanAmount "15.00") =
      some (((15 : ℕ) : ℚ) + ((0 : ℕ) : ℚ) / (10 : ℚ) ^ 2) := rfl
  rw [h]
  norm_num

/-- Evaluation lemma: a truthy amount whose cleaned form parses to a
positive number, with no line items, yields the plain valid result. -/
theorem validateAmount_nil_eval (s : String) (n : ℚ)
    (hs : isTruthy (some s) = true)
    (hp : parseFloat (cleanAmount s) = some n) (hpos : 0 < n) :
    validateAmount (some s) [] = ⟨some s, true, none, none, some n⟩ := by
  simp only [validateAmount, hs, Bool.not_true, Bool.false_eq_true, if_false, Option.getD_some, hp]
  rw [if_neg (not_le.mpr hpos)]
  simp

/-- C2 counterexample: `"€15.00"` contains a currency symbol whose
symbol-free form is `"15.00"`, yet the code (which only strips `$`,
commas and whitespace) rejects it with "Amount must be a valid number"
while the symbol-free form is valid with numeric value 15 — the claimed
equivalence fails for non-dollar currency symbols. -/
theorem validateAmount_euro_symbol_cex :
    specSymbolFreeForm "€15.00" = "15.00" ∧
    (validateAmount (some "€15.00") []).valid = false ∧
    (validateAmount (some "€15.00") []).numericValue = none ∧
    (validateAmount (some "15.00") []).valid = true ∧
    (validateAmount (some "15.00") []).numericValue = some 15 := by
  have h := validateAmount_nil_eval "15.00" 15 (by decide) parseFloat_1500 (by norm_num)
  refine ⟨rfl, rfl, rfl, ?_, ?_⟩ <;> rw [h]

/-- C3 counterexample: when the scoring gateway's `field_scores` carries
only the legacy key `invoice_number`, the mapped score set read at the
alias yields that score while the canonical key `reference_number` yields
nothing — the alias does not resolve to the same score as its canonical
name. -/
theorem mappedScores_alias_canonical_differ_cex :
    mappedScores [("invoice_number", ⟨85, "clearly labeled"⟩)] "invoice_number" =
      some ⟨85, "clearly labeled"⟩ ∧
    mappedScores [("invoice_number", ⟨85, "clearly labeled"⟩)] "reference_number" = none :=
  ⟨rfl, rfl⟩

/-- C8 counterexample: `" A"` has trimmed length 1 (< 2), yet
validateVendorName accepts it, because the `< 2` length check runs on the
untrimmed string (length 2). -/
theorem validateVendorName_untrimmed_cex :
    (validateVendorName (some " A")).valid = true ∧
    (jsTrim " A").length = 1 ∧ (" A").length = 2 := by decide

/-- C9 counterexample: for the off-list code `"xyz"` the returned value is
the original string `"xyz"`, not its uppercase form `"XYZ"` — the code
uppercases only codes that land in the allow-list. -/
theorem validateCurrency_not_uppercased_cex :
    (validateCurrency (some "xyz")).value = some "xyz" ∧
    (validateCurrency (some "xyz")).warning = some (VWarning.unusualCurrency "xyz") ∧
    (validateCurrency (some "xyz")).value ≠ some (jsToUpper "xyz") := by decide

/-- C8 amended: validateVendorName accepts exactly the present values with
non-blank trim and untrimmed length at least 2 (the `< 2` check runs on
the untrimmed string); everything else gets an error. -/
theorem validateVendorName_valid_iff (v : Option String) :
    ((validateVendorName v).valid = true ↔
      (isTruthy v = true ∧ (jsTrim (v.getD "")).length ≠ 0 ∧ 2 ≤ (v.getD "").length)) ∧
    ((validateVendorName v).valid = false ↔ (validateVendorName v).error.isSome) := by
  constructor
  · simp only [validateVendorName]
    split_ifs with h1 h2 h3 <;> simp_all
  · simp only [validateVendorName]
    split_ifs <;> simp

/-- C9 amended: a falsy currency defaults to value `"USD"`, valid, with a
warning; a present currency is always valid, warned exactly when its
uppercase form is outside the allow-list, and its value is the uppercase
form when the uppercase form is in the allow-list but the original
(non-uppercased) string otherwise. -/
theorem validateCurrency_uppercase_and_warning (c : Option String) :
    (isTruthy c = false →
      validateCurrency c = ⟨some "USD", true, none, some VWarning.currencyNotSpecified, none⟩) ∧
    (∀ s, c = some s → isTruthy c = true →
      (validateCurrency c).valid = true ∧
      ((validateCurrency c).warning.isSome ↔
        validCurrencies.contains (jsToUpper s) = false) ∧
      (validateCurrency c).value =
        (if validCurrencies.contains (jsToUpper s) then some (jsToUpper s) else some s)) := by
  constructor
  · intro h
    simp [validateCurrency, h]
  · rintro s rfl ht
    by_cases hc : jsToUpper s ∈ validCurrencies <;>
      simp [validateCurrency, ht, hc]

/-- The cleaning of validateAmount is idempotent: stripping `,`, `$` and
whitespace twice equals stripping once. -/
theorem cleanAmount_idem (s : String) : cleanAmount (cleanAmount s) = cleanAmount s := by
  simp only [cleanAmount]
  rw [show (String.mk (s.toList.filter
      (fun c => !(c == ',' || c == '$' || jsWhitespaceChar c)))).toList
    = s.toList.filter (fun c => !(c == ',' || c == '$' || jsWhitespaceChar c)) from rfl]
  rw [List.filter_filter]
  simp

/-- The (valid, numericValue) outcome of validateAmount once the amount is
truthy, as a function of the parsed cleaned amount and the line items
(used to relate a raw amount string and its cleaned form). -/
def amountOutcome (p : Option ℚ) (items : List LineItem) : Bool × Option ℚ :=
  match p with
  | none => (false, none)
  | some n =>
    if n ≤ 0 then (false, none)
    else if items.length > 0 then
      match lineItemTotal items with
      | some t => if max (0.01 : ℚ) (n * 0.01) < |n - t| then (true, none) else (true, some n)
      | none => (true, some n)
    else (true, some n)

/-- validateAmount's valid flag and numeric value depend on the amount
string only through `parseFloat(cleanAmount(...))`. -/
theorem validateAmount_outcome (a : Option String) (items : List LineItem)
    (h : isTruthy a = true) :
    ((validateAmount a items).valid, (validateAmount a items).numericValue) =
      amountOutcome (parseFloat (cleanAmount (a.getD ""))) items := by
  simp only [validateAmount, amountOutcome, h, Bool.not_true, Bool.false_eq_true, if_false]
  cases hp : parseFloat (cleanAmount (a.getD "")) with
  | none => rfl
  | some n =>
    by_cases hn : n ≤ 0
    · simp [hn]
    · by_cases hl : items.length > 0
      · simp only [if_neg hn, if_pos hl]
        cases ht : lineItemTotal items with
        | none => rfl
        | some t =>
          by_cases htol : max (0.01 : ℚ) (n * 0.01) < |n - t| <;> simp [htol]
      · simp [hn, hl]

/-- The outcome is valid exactly when the cleaned amount parses to a
positive number. -/
theorem amountOutcome_valid_iff (p : Option ℚ) (items : List LineItem) :
    (amountOutcome p items).1 = true ↔ ∃ n, p = some n ∧ 0 < n := by
  cases p with
  | none => simp [amountOutcome]
  | some n =>
    by_cases hn : n ≤ 0
    · simp [amountOutcome, hn]
    · by_cases hl : items.length > 0
      · cases ht : lineItemTotal items with
        | none => simp [amountOutcome, hn, hl, ht, not_le.mp hn]
        | some t =>
          by_cases htol : max (0.01 : ℚ) (n * 0.01) < |n - t| <;>
            simp [amountOutcome, hn, hl, ht, htol, not_le.mp hn]
      · simp [amountOutcome, hn, hl, not_le.mp hn]

/-- A present string is truthy exactly when it is non-empty. -/
theorem isTruthy_some_iff (s : String) : isTruthy (some s) = true ↔ s ≠ "" := by
  rw [show isTruthy (some s) = !s.isEmpty from rfl, Bool.not_eq_true', Bool.eq_false_iff]
  simp [String.isEmpty_iff]

/-- C2 amended: for the characters the code actually strips (`$`, commas,
whitespace), validateAmount yields the same validity and the same parsed
numeric value on a raw string as on its cleaned form, and validity holds
exactly when the cleaned value parses to a number > 0.  (As the
counterexample shows, the equivalence fails for non-dollar currency
symbols such as `€`, which the code does not strip.) -/
theorem validateAmount_cleaning_equiv (s : String) (items : List LineItem) :
    ((validateAmount (some s) items).valid = (validateAmount (some (cleanAmount s)) items).valid) ∧
    ((validateAmount (some s) items).numericValue =
      (validateAmount (some (cleanAmount s)) items).numericValue) ∧
    ((validateAmount (some s) items).valid = true ↔
      ∃ n, parseFloat (cleanAmount s) = some n ∧ 0 < n) := by
  by_cases hs : s = ""
  · subst hs
    rw [show cleanAmount "" = "" from rfl]
    refine ⟨rfl, rfl, ?_⟩
    rw [show parseFloat "" = (none : Option ℚ) from rfl]
    have h0 : isTruthy (some "") = false := rfl
    simp [validateAmount, h0]
  · have hts : isTruthy (some s) = true := (isTruthy_some_iff s).mpr hs
    have h1 := validateAmount_outcome (some s) items hts
    simp only [Option.getD_some] at h1
    have hv1 : (validateAmount (some s) items).valid =
        (amountOutcome (parseFloat (cleanAmount s)) items).1 := by
      have := congrArg Prod.fst h1; simpa using this
    have hn1 : (validateAmount (some s) items).numericValue =
        (amountOutcome (parseFloat (cleanAmount s)) items).2 := by
      have := congrArg Prod.snd h1; simpa using this
    by_cases hc : cleanAmount s = ""
    · rw [hc]
      rw [hc] at hv1 hn1
      rw [show parseFloat "" = (none : Option ℚ) from rfl] at hv1 hn1
      have h0 : isTruthy (some "") = false := rfl
      refine ⟨?_, ?_, ?_⟩
      · rw [hv1]; simp [validateAmount, h0, amountOutcome]
      · rw [hn1]; simp [validateAmount, h0, amountOutcome]
      · rw [hv1]
        simp [amountOutcome, show parseFloat "" = (none : Option ℚ) from rfl]
    · have htc : isTruthy (some (cleanAmount s)) = true := (isTruthy_some_iff _).mpr hc
      have h2 := validateAmount_outcome (some (cleanAmount s)) items htc
      simp only [Option.getD_some] at h2
      rw [cleanAmount_idem] at h2
      have hv2 : (validateAmount (some (cleanAmount s)) items).valid =
          (amountOutcome (parseFloat (cleanAmount s)) items).1 := by
        have := congrArg Prod.fst h2; simpa using this
      have hn2 : (validateAmount (some (cleanAmount s)) items).numericValue =
          (amountOutcome (parseFloat (cleanAmount s)) items).2 := by
        have := congrArg Prod.snd h2; simpa using this
      refine ⟨by rw [hv1, hv2], by rw [hn1, hn2], ?_⟩
      rw [hv1]
      exact amountOutcome_valid_iff _ _

/-- C3 amended: in every ValidationResultSet the legacy alias keys resolve
to the identical result as their canonical counterparts (unconditionally,
also when both are absent); in the mapped score set each alias resolves to
the same score as its canonical name whenever the canonical name carries a
score — when only the alias carries one, the canonical key stays empty and
the two names differ (see the counterexample). -/
theorem validation_and_score_alias_identity (now : SimpleDate) (d : ExtractedData)
    (scores : List (String × ConfidenceScore)) :
    (List.lookup "invoice_number" (validateDocumentData now d) =
      List.lookup "reference_number" (validateDocumentData now d)) ∧
    (List.lookup "invoice_date" (validateDocumentData now d) =
      List.lookup "transaction_date" (validateDocumentData now d)) ∧
    (List.lookup "amount_due" (validateDocumentData now d) =
      List.lookup "total_amount" (validateDocumentData now d)) ∧
    (List.lookup "due_date" (validateDocumentData now d) =
      List.lookup "payment_due_date" (validateDocumentData now d)) ∧
    ((List.lookup "reference_number" scores).isSome →
      mappedScores scores "invoice_number" = mappedScores scores "reference_number") ∧
    ((List.lookup "transaction_date" scores).isSome →
      mappedScores scores "invoice_date" = mappedScores scores "transaction_date") ∧
    ((List.lookup "total_amount" scores).isSome →
      mappedScores scores "amount_due" = mappedScores scores "total_amount") ∧
    ((List.lookup "payment_due_date" scores).isSome →
      mappedScores scores "due_date" = mappedScores scores "payment_due_date") := by
  refine ⟨?_, ?_, ?_, ?_, ?_, ?_, ?_, ?_⟩
  · by_cases hdue : isTruthy (jsOr d.payment_due_date d.due_date) <;>
      by_cases hcust : isTruthy d.customer_name <;>
        simp [validateDocumentData, hdue, hcust, List.lookup]
  · by_cases hdue : isTruthy (jsOr d.payment_due_date d.due_date) <;>
      by_cases hcust : isTruthy d.customer_name <;>
        simp [validateDocumentData, hdue, hcust, List.lookup]
  · by_cases hdue : isTruthy (jsOr d.payment_due_date d.due_date) <;>
      by_cases hcust : isTruthy d.customer_name <;>
        simp [validateDocumentData, hdue, hcust, List.lookup]
  · by_cases hdue : isTruthy (jsOr d.payment_due_date d.due_date) <;>
      by_cases hcust : isTruthy d.customer_name <;>
        simp [validateDocumentData, hdue, hcust, List.lookup]
  · intro h
    obtain ⟨v, hv⟩ := Option.isSome_iff_exists.mp h
    simp [mappedScores, hv]
  · intro h
    obtain ⟨v, hv⟩ := Option.isSome_iff_exists.mp h
    simp [mappedScores, hv]
  · intro h
    obtain ⟨v, hv⟩ := Option.isSome_iff_exists.mp h
    simp [mappedScores, hv]
  · intro h
    obtain ⟨v, hv⟩ := Option.isSome_iff_exists.mp h
    simp [mappedScores, hv]

/-- C10: getValidationSummary enumerates every key of the result map, so a
field exposed under a canonical name and an alias counts twice in each of
total, valid, warnings and errors (coefficient 2 below for
reference_number, transaction_date, payment_due_date and total_amount); in
particular a single invalid reference_number contributes 2 to `errors`,
and allValid is `errors = 0` over this double-counted set. -/
theorem getValidationSummary_counts_aliases_twice (now : SimpleDate) (d : ExtractedData) :
    (getValidationSummary (validateDocumentData now d)).total =
      8 + (if isTruthy (jsOr d.payment_due_date d.due_date) then 2 else 0)
        + (if isTruthy d.customer_name then 1 else 0) ∧
    (getValidationSummary (validateDocumentData now d)).errors =
      errFlag (validateVendorName d.vendor_name)
      + 2 * errFlag (validateReferenceNumber (jsOr d.reference_number d.invoice_number))
      + 2 * errFlag (validateDate now (jsOr d.transaction_date d.invoice_date)
          "transaction_date")
      + (if isTruthy (jsOr d.payment_due_date d.due_date) then
          2 * errFlag (validateDueDate now (jsOr d.transaction_date d.invoice_date)
            ((jsOr d.payment_due_date d.due_date).getD "")) else 0)
      + 2 * errFlag (validateAmount (jsOr d.total_amount d.amount_due) d.line_items)
      + errFlag (validateCurrency d.currency)
      + (if isTruthy d.customer_name then errFlag (validateCustomerName d.customer_name) else 0) ∧
    (getValidationSummary (validateDocumentData now d)).warnings =
      warnFlag (validateVendorName d.vendor_name)
      + 2 * warnFlag (validateReferenceNumber (jsOr d.reference_number d.invoice_number))
      + 2 * warnFlag (validateDate now (jsOr d.transaction_date d.invoice_date)
          "transaction_date")
      + (if isTruthy (jsOr d.payment_due_date d.due_date) then
          2 * warnFlag (validateDueDate now (jsOr d.transaction_date d.invoice_date)
            ((jsOr d.payment_due_date d.due_date).getD "")) else 0)
      + 2 * warnFlag (validateAmount (jsOr d.total_amount d.amount_due) d.line_items)
      + warnFlag (validateCurrency d.currency)
      + (if isTruthy d.customer_name then warnFlag (validateCustomerName d.customer_name) else 0) ∧
    (getValidationSummary (validateDocumentData now d)).valid =
      validFlag (validateVendorName d.vendor_name)
      + 2 * validFlag (validateReferenceNumber (jsOr d.reference_number d.invoice_number))
      + 2 * validFlag (validateDate now (jsOr d.transaction_date d.invoice_date)
          "transaction_date")
      + (if isTruthy (jsOr d.payment_due_date d.due_date) then
          2 * validFlag (validateDueDate now (jsOr d.transaction_date d.invoice_date)
            ((jsOr d.payment_due_date d.due_date).getD "")) else 0)
      + 2 * validFlag (validateAmount (jsOr d.total_amount d.amount_due) d.line_items)
      + validFlag (validateCurrency d.currency)
      + (if isTruthy d.customer_name then validFlag (validateCustomerName d.customer_name) else 0) ∧
    ((getValidationSummary (validateDocumentData now d)).allValid = true ↔
      (getValidationSummary (validateDocumentData now d)).errors = 0) := by
  have hsplit : ∀ b : Bool, (if b = true then 2 else 0) = 2 * (if b = true then 1 else 0) := by
    intro b
    cases b <;> simp
  refine ⟨?_, ?_, ?_, ?_, ?_⟩ <;>
    by_cases hdue : isTruthy (jsOr d.payment_due_date d.due_date) <;>
      by_cases hcust : isTruthy d.customer_name <;>
        simp [validateDocumentData, getValidationSummary, hdue, hcust,
          List.countP_cons, List.countP_nil, errFlag, warnFlag, validFlag] <;>
        simp only [hsplit] <;>
          ring

/-- C6: when the total parses to a positive n and the line items are
non-empty with a well-defined (non-NaN) sum, the result is valid with no
error and carries a mismatch warning with the numeric difference
`|n - sum|` exactly when that difference exceeds
`max(0.01, 0.01 * n)`. -/
theorem validateAmount_lineitem_tolerance (amount : String) (items : List LineItem) (n total : ℚ)
    (hp : parseFloat (cleanAmount amount) = some n) (hpos : 0 < n)
    (hne : items.length > 0) (hsum : lineItemTotal items = some total) :
    (validateAmount (some amount) items).valid = true ∧
    (validateAmount (some amount) items).warning =
      (if max (0.01 : ℚ) (n * 0.01) < |n - total| then
        some (VWarning.lineItemMismatch total n |n - total|) else none) ∧
    (validateAmount (some amount) items).error = none := by
  have hs : amount ≠ "" := by
    intro he
    subst he
    rw [show cleanAmount "" = "" from rfl, show parseFloat "" = (none : Option ℚ) from rfl] at hp
    exact Option.noConfusion hp
  have hts : isTruthy (some amount) = true := (isTruthy_some_iff amount).mpr hs
  simp only [validateAmount, hts, Bool.not_true, Bool.false_eq_true, if_false,
    Option.getD_some, hp]
  rw [if_neg (not_le.mpr hpos), if_pos hne, hsum]
  by_cases htol : max (0.01 : ℚ) (n * 0.01) < |n - total| <;> simp [htol]

/-- The line items of spec testable property 3. -/
def demoLineItems : List LineItem := [{ amount := some "10.00" }, { amount := some "5.00" }]

/-- C6 witness: line items 10.00 and 5.00 with total "20.00" give a
warning carrying difference 5, and with total "15.00" give no warning. -/
theorem validateAmount_lineitem_tolerance_witness :
    (validateAmount (some "20.00") demoLineItems).valid = true ∧
    (validateAmount (some "20.00") demoLineItems).warning =
      some (VWarning.lineItemMismatch 15 20 5) ∧
    (validateAmount (some "15.00") demoLineItems).warning = none := by
  have h20 : parseFloat (cleanAmount "20.00") = some 20 := by
    have h : parseFloat (cleanAmount "20.00") =
        some (((20 : ℕ) : ℚ) + ((0 : ℕ) : ℚ) / (10 : ℚ) ^ 2) := rfl
    rw [h]
    norm_num
  have h15sum : lineItemTotal demoLineItems = some 15 := by
    have h : lineItemTotal demoLineItems =
        some (((0 : ℚ) + (((10 : ℕ) : ℚ) + ((0 : ℕ) : ℚ) / (10 : ℚ) ^ 2))
          + (((5 : ℕ) : ℚ) + ((0 : ℕ) : ℚ) / (10 : ℚ) ^ 2)) := rfl
    rw [h]
    norm_num
  have hA := validateAmount_lineitem_tolerance "20.00" demoLineItems 20 15 h20
    (by norm_num) (by decide) h15sum
  have hB := validateAmount_lineitem_tolerance "15.00" demoLineItems 15 15 parseFloat_1500
    (by norm_num) (by decide) h15sum
  have habs5 : |(20 : ℚ) - 15| = 5 := by
    rw [show (20 : ℚ) - 15 = 5 by norm_num]
    exact abs_of_pos (by norm_num)
  have habs0 : |(15 : ℚ) - 15| = 0 := by
    rw [show (15 : ℚ) - 15 = 0 by norm_num]
    exact abs_zero
  refine ⟨hA.1, ?_, ?_⟩
  · rw [hA.2.1, habs5, if_pos]
    rw [max_eq_right (by norm_num : (0.01 : ℚ) ≤ 20 * 0.01)]
    norm_num
  · rw [hB.2.1, habs0, if_neg]
    intro h
    have h2 := lt_of_le_of_lt (le_max_left (0.01 : ℚ) (15 * 0.01)) h
    norm_num at h2

/-- A `NaN` date on the right makes the JS `<` comparison false. -/
theorem jsDateLt_none_right (a b : String) (hb : jsDate b = none) : jsDateLt a b = false := by
  cases hda : jsDate a <;> simp [jsDateLt, hda, hb]

/-- JS date `<` is irreflexive, also on `NaN`. -/
theorem jsDateLt_self (a : String) : jsDateLt a a = false := by
  cases hda : jsDate a <;> simp [jsDateLt, hda]

/-- C7: for a well-formed due date, validateDueDate warns (staying valid)
when the invoice date is absent, and otherwise errors exactly when the due
date is strictly before the invoice date — in particular a due date equal
to the invoice date is valid. -/
theorem validateDueDate_boundary (now : SimpleDate) (invoiceDate : Option String)
    (dueDate : String)
    (hdue : (validateDate now (some dueDate) "due_date").valid = true) :
    (isTruthy invoiceDate = false →
      validateDueDate now invoiceDate dueDate =
        ⟨some dueDate, true, none, some VWarning.cannotVerifyDueDate, none⟩) ∧
    (∀ s, invoiceDate = some s →
      (((validateDueDate now invoiceDate dueDate).error.isSome = true) ↔ jsDateLt dueDate s = true) ∧
      ((validateDueDate now invoiceDate dueDate).valid = true ↔ jsDateLt dueDate s = false) ∧
      (∀ kd ks, jsDate dueDate = some kd → jsDate s = some ks →
        (jsDateLt dueDate s = true ↔ kd < ks))) ∧
    (invoiceDate = some dueDate → (validateDueDate now invoiceDate dueDate).valid = true) := by
  refine ⟨?_, ?_, ?_⟩
  · intro hf
    simp [validateDueDate, hdue, hf]
  · rintro s rfl
    refine ⟨?_, ?_, ?_⟩
    · by_cases ht : isTruthy (some s) = true
      · by_cases hlt : jsDateLt dueDate s <;> simp [validateDueDate, hdue, ht, hlt]
      · have ht' : isTruthy (some s) = false := by
          cases h : isTruthy (some s)
          · rfl
          · exact absurd h ht
        have hse : s = "" := by
          by_contra hne
          exact absurd ((isTruthy_some_iff s).mpr hne) ht
        subst hse
        rw [jsDateLt_none_right dueDate "" rfl]
        simp [validateDueDate, hdue, ht']
    · by_cases ht : isTruthy (some s) = true
      · by_cases hlt : jsDateLt dueDate s <;> simp [validateDueDate, hdue, ht, hlt]
      · have ht' : isTruthy (some s) = false := by
          cases h : isTruthy (some s)
          · rfl
          · exact absurd h ht
        have hse : s = "" := by
          by_contra hne
          exact absurd ((isTruthy_some_iff s).mpr hne) ht
        subst hse
        rw [jsDateLt_none_right dueDate "" rfl]
        simp [validateDueDate, hdue, ht']
    · intro kd ks h1 h2
      simp [jsDateLt, h1, h2]
  · rintro rfl
    by_cases ht : isTruthy (some dueDate) = true
    · simp [validateDueDate, hdue, ht, jsDateLt_self]
    · have ht' : isTruthy (some dueDate) = false := by
        cases h : isTruthy (some dueDate)
        · rfl
        · exact absurd h ht
      simp [validateDueDate, hdue, ht']

/-- C7 witness: equal due and invoice dates are valid. -/
theorem validateDueDate_boundary_witness :
    (validateDueDate ⟨2026, 10, 12⟩ (some "2026-01-15") "2026-01-15").valid = true :=
  (validateDueDate_boundary ⟨2026, 10, 12⟩ (some "2026-01-15") "2026-01-15" (by decide)).2.2 rfl

end InvoiceAssistant
